import Mathlib

/-!
Verification of the tool functions of `src/multi-agent/agent.py`: a shallow
embedding of `get_weather`, `get_current_time` and `get_travel_info`, and
theorems settling the specification's claims about them.

Python strings are embedded as `String`, Python dicts with string keys as
association lists in insertion order (CPython dicts preserve insertion order,
and all keys here are distinct, so `List.lookup` agrees with dict indexing).
The external collaborators (geocoding, the weather HTTP call, the timezone
finder, the clock) are passed in as explicit arguments; a collaborator that can
raise is embedded as `Except`, with the exception's `str(e)` as the payload.
-/

/-- The uniform result dictionary every tool returns: a `status` string plus
an optional `report` and an optional `error_message` key (a key absent from the
Python dict is `none`). -/
structure ToolResult where
  status : String
  report : Option String
  error_message : Option String
deriving DecidableEq

/-- The dict literal `{"status": "success", "report": r}`. -/
def mkSuccess (r : String) : ToolResult :=
  ToolResult.mk "success" (some r) none

/-- The dict literal `{"status": "error", "error_message": m}`. -/
def mkError (m : String) : ToolResult :=
  ToolResult.mk "error" none (some m)

/-- Python's `str.lower()` (the inputs of interest are ASCII, where
`Char.toLower` and `str.lower` agree). -/
def pyLower (s : String) : String :=
  String.mk (s.data.map Char.toLower)

/-- Contiguous-substring test on char lists: `subLift n h` is true iff `n`
occurs contiguously in `h`. Embeds Python's `needle in haystack` on strings. -/
def subList (n : List Char) : List Char → Bool
  | [] => n.isEmpty
  | c :: t => n.isPrefixOf (c :: t) || subList n t

/-- Python's substring operator `needle in haystack`. -/
def strIn (needle hay : String) : Bool :=
  subList needle.data hay.data

/-- The hardcoded `travel_data` dict of `get_travel_info`
(src/multi-agent/agent.py lines 101-132), keys in source order. -/
def travel_data : List (String × List (String × String)) :=
  [("london",
    [("power outlets", "Type G (three rectangular pins). Standard voltage 230V, frequency 50Hz."),
     ("culture", "A culture of politeness, orderly queues, afternoon tea, and pub culture. Greet with 'excuse me' or 'sorry' when interacting. Respect personal space."),
     ("transportation", "Extensive public transportation (Tube, bus). Oyster card or contactless payment is recommended. Iconic black cabs.")]),
   ("tokyo",
    [("power outlets", "Types A and B (two or three flat pins). Standard voltage 100V, frequency 50Hz or 60Hz (depending on the region)."),
     ("culture", "Highly values politeness, order, and cleanliness. Do not tip. Remove shoes in homes and some restaurants. Respect queues."),
     ("transportation", "Highly efficient train and metro system. The Japan Rail Pass can be cost-effective. Be mindful of rush hour.")]),
   ("new york",
    [("power outlets", "Types A and B (two or three flat pins). Standard voltage 120V, frequency 60Hz."),
     ("culture", "Fast-paced, diverse, and direct. Don't hesitate to speak up. Tipping is common in restaurants and services. Rich theater and art scene."),
     ("transportation", "24-hour metro (subway) system. Yellow cabs. Walking is a popular way to explore.")]),
   ("paris",
    [("power outlets", "Type E (two round pins with a grounding hole). Standard voltage 230V, frequency 50Hz."),
     ("culture", "Values art, fashion, and cuisine. Greet with 'Bonjour' or 'Bonsoir'. Enjoy coffee at cafes and picnics in parks. Elegance is appreciated."),
     ("transportation", "The Metro is very efficient. T+ tickets for bus, metro, and tram. Walking is the best way to see the sights.")]),
   ("surabaya",
    [("power outlets", "Types C and F (two round pins). Standard voltage 230V, frequency 50Hz."),
     ("culture", "Surabayans are known to be friendly and direct. Local culinary delights (rujak cingur, lontong balap). Uses Indonesian and Javanese languages."),
     ("transportation", "Public transport like the Suroboyo Bus. Taxis and online ride-hailing are very popular. Traffic can be dense.")]),
   ("ponorogo",
    [("power outlets", "Types C and F (two round pins). Standard voltage 230V, frequency 50Hz."),
     ("culture", "Ponorogo dikenal sebagai kota Reog. Local culinary delights (nasi pecel, dawet jabung. Uses Indonesian and Javanese languages."),
     ("transportation", "Public transport like the Suroboyo Bus. Taxis and online ride-hailing are very popular. Traffic can be dense.")])]

/-- The body of the `try:` block of `get_travel_info`
(src/multi-agent/agent.py lines 135-162), over the four locals in scope:
the original `city` and `info_type` and their lower-casings. Every operation in
that block is total on strings, so the `except` clause of lines 164-168 is
unreachable and the block is embedded as a plain function. -/
def get_travel_info_try (city info_type city_lower info_type_lower : String) : ToolResult :=
  match List.lookup city_lower travel_data with
  | none =>
      mkError ("Sorry, I don't have specific travel information for " ++ city ++
        " yet. You can try major cities like London, Tokyo, New York, or Paris.")
  | some city_info =>
      match List.lookup info_type_lower city_info with
      | some fact => mkSuccess ("For " ++ info_type ++ " in " ++ city ++ ": " ++ fact)
      | none =>
          match List.find?
              (fun kv => strIn info_type_lower (pyLower kv.1) || strIn (pyLower kv.1) info_type_lower)
              city_info with
          | some kv => mkSuccess ("For " ++ info_type ++ " in " ++ city ++ ": " ++ kv.2)
          | none =>
              mkError ("Sorry, I don't have information about '" ++ info_type ++ "' for " ++
                city ++ ". Available information includes: " ++
                String.intercalate ", " (city_info.map Prod.fst) ++ ".")

/-- `get_travel_info` (src/multi-agent/agent.py lines 93-168) on string
arguments: lower-case both arguments (lines 97-98), then run the guarded body. -/
def get_travel_info (city info_type : String) : ToolResult :=
  get_travel_info_try city info_type (pyLower city) (pyLower info_type)

/-- A Python value passed where the tool expects a string: either an actual
string or `None` (a stand-in for any non-string argument, on which `.lower()`
raises `AttributeError`). -/
inductive PyVal where
  | str (s : String)
  | pynone
deriving DecidableEq

/-- Python's `v.lower()` on a tool argument: succeeds on strings, raises on
`None`. The `Except.error` payload is the exception's `str`. -/
def PyVal.lower : PyVal → Except String String
  | .str s => Except.ok (pyLower s)
  | .pynone => Except.error "AttributeError: 'NoneType' object has no attribute 'lower'"

/-- Python's `str(v)`, as an f-string would render the argument. -/
def PyVal.pyStr : PyVal → String
  | .str s => s
  | .pynone => "None"

/-- `get_travel_info` as actually invoked on arbitrary Python arguments:
lines 97-98 call `.lower()` on both arguments BEFORE the `try:` of line 135,
so an exception raised there propagates out of the function (`Except.error`);
only then does the guarded body run. -/
def get_travel_info_py (city info_type : PyVal) : Except String ToolResult :=
  match PyVal.lower city with
  | Except.error e => Except.error e
  | Except.ok city_lower =>
      match PyVal.lower info_type with
      | Except.error e => Except.error e
      | Except.ok info_type_lower =>
          Except.ok (get_travel_info_try city.pyStr info_type.pyStr city_lower info_type_lower)

/-- A geocoded location (`location.latitude`/`location.longitude`). The claims
never inspect the coordinate values, so they are embedded as integers. -/
structure Location where
  latitude : Int
  longitude : Int
deriving DecidableEq

/-- The `current_weather` object of the weather provider's JSON response.
The provider serves one-decimal values, so `temperature` and `windspeed` are
embedded exactly as integer counts of tenths; `weathercode` is an integer. -/
structure CurrentWeather where
  temperature_tenths : Int
  windspeed_tenths : Int
  weathercode : Nat
deriving DecidableEq

/-- An exception inside `get_weather`'s `try:` block: either a
`requests.exceptions.RequestException` or any other exception, each carrying
its `str`. -/
inductive PyExn where
  | request (msg : String)
  | other (msg : String)
deriving DecidableEq

/-- Renders an integer number of tenths the way Python renders the
corresponding one-decimal float (`f"{x:.1f}"`, and `str(x)` for the
one-decimal floats the provider serves): sign, integer part, a dot, and
exactly one digit. -/
def formatTenths (t : Int) : String :=
  (if t < 0 then "-" else "") ++ toString (t.natAbs / 10) ++ "." ++
    String.singleton (Nat.digitChar (t.natAbs % 10))

/-- The body of the `try:` block of `get_weather`
(src/multi-agent/agent.py lines 13-49). `geocode` is the geocoding
collaborator's answer for `city`; `fetch` is the weather HTTP call
(`requests.get` + `raise_for_status` + JSON decode), returning the response's
`current_weather` object or `none` when the JSON lacks that key, or an
exception. An exception anywhere in the block is the `Except.error` case. -/
def get_weather_try (city : String) :
    Except PyExn (Option Location) → (Location → Except PyExn (Option CurrentWeather)) →
    Except PyExn ToolResult
  | Except.error e, _ => Except.error e
  | Except.ok none, _ =>
      Except.ok (mkError ("Could not find the city: " ++ city ++ "."))
  | Except.ok (some loc), fetch =>
      match fetch loc with
      | Except.error e => Except.error e
      | Except.ok none =>
          Except.ok (mkError ("Weather data not available for " ++ city ++ "."))
      | Except.ok (some w) =>
          Except.ok (mkSuccess ("The current temperature in " ++ city ++ " is " ++
            formatTenths w.temperature_tenths ++ "Â°C with a wind speed of " ++
            formatTenths w.windspeed_tenths ++ " km/h. Weather code: " ++
            toString w.weathercode ++ "."))

/-- `get_weather` (src/multi-agent/agent.py lines 9-57): the `try:` body plus
its two `except` clauses — `RequestException` is reported with the
"Request error: " prefix, any other exception with the
"An unexpected error occurred: " prefix. -/
def get_weather (city : String) (geocode : Except PyExn (Option Location))
    (fetch : Location → Except PyExn (Option CurrentWeather)) : ToolResult :=
  match get_weather_try city geocode fetch with
  | Except.ok r => r
  | Except.error (PyExn.request m) => mkError ("Request error: " ++ m)
  | Except.error (PyExn.other m) => mkError ("An unexpected error occurred: " ++ m)

/-- The body of the `try:` block of `get_current_time`
(src/multi-agent/agent.py lines 64-87). `geocode` is the geocoding answer,
`timezone_at` the `TimezoneFinder.timezone_at` collaborator, and `now_in` the
composition `ZoneInfo` + `datetime.now` + `strftime` producing the formatted
current time for a timezone name. Each may raise (`Except.error`, carrying
`str(e)`). -/
def get_current_time_try (city : String) :
    Except String (Option Location) → (Location → Except String (Option String)) →
    (String → Except String String) → Except String ToolResult
  | Except.error e, _, _ => Except.error e
  | Except.ok none, _, _ =>
      Except.ok (mkError ("Could not find the city: " ++ city ++ "."))
  | Except.ok (some loc), timezone_at, now_in =>
      match timezone_at loc with
      | Except.error e => Except.error e
      | Except.ok none =>
          Except.ok (mkError ("Could not determine the timezone for " ++ city ++ "."))
      | Except.ok (some tzname) =>
          match now_in tzname with
          | Except.error e => Except.error e
          | Except.ok t =>
              Except.ok (mkSuccess ("The current time in " ++ city ++ " is " ++ t))

/-- `get_current_time` (src/multi-agent/agent.py lines 60-90): the `try:`
body plus its catch-all `except`, which reports `str(e)` verbatim. -/
def get_current_time (city : String) (geocode : Except String (Option Location))
    (timezone_at : Location → Except String (Option String))
    (now_in : String → Except String String) : ToolResult :=
  match get_current_time_try city geocode timezone_at now_in with
  | Except.ok r => r
  | Except.error e => mkError e

/-- The spec's ToolResult invariant: `status` is `"success"` with a report and
no error message, or `"error"` with an error message and no report. -/
def wellFormed (r : ToolResult) : Prop :=
  (r.status = "success" ∧ r.report ≠ none ∧ r.error_message = none) ∨
  (r.status = "error" ∧ r.error_message ≠ none ∧ r.report = none)

lemma wellFormed_mkSuccess (r : String) : wellFormed (mkSuccess r) :=
  Or.inl ⟨rfl, Option.some_ne_none r, rfl⟩

lemma wellFormed_mkError (m : String) : wellFormed (mkError m) :=
  Or.inr ⟨rfl, Option.some_ne_none m, rfl⟩

lemma find?_of_prefix_none {α : Type} (p : α → Bool) (kv : α) (hkv : p kv = true) :
    ∀ (pre : List α) (post : List α), (∀ q ∈ pre, p q = false) →
      List.find? p (pre ++ kv :: post) = some kv := by
  intro pre
  induction pre with
  | nil =>
      intro post _
      simpa using List.find?_cons_of_pos post hkv
  | cons a l ih =>
      intro post hp
      have ha : ¬ p a = true := by simp [hp a (List.mem_cons_self a l)]
      rw [List.cons_append, List.find?_cons_of_neg _ ha]
      exact ih post (fun q hq => hp q (List.mem_cons_of_mem a hq))

lemma get_travel_info_wf (city info_type : String) :
    wellFormed (get_travel_info city info_type) := by
  unfold get_travel_info get_travel_info_try
  split
  · exact wellFormed_mkError _
  · split
    · exact wellFormed_mkSuccess _
    · split
      · exact wellFormed_mkSuccess _
      · exact wellFormed_mkError _

lemma get_weather_wf (city : String) (geocode : Except PyExn (Option Location))
    (fetch : Location → Except PyExn (Option CurrentWeather)) :
    wellFormed (get_weather city geocode fetch) := by
  unfold get_weather
  rcases geocode with e | loc?
  · rcases e with m | m
    · exact wellFormed_mkError _
    · exact wellFormed_mkError _
  · rcases loc? with _ | loc
    · exact wellFormed_mkError _
    · simp only [get_weather_try]
      rcases hf : fetch loc with e | w?
      · rcases e with m | m
        · exact wellFormed_mkError _
        · exact wellFormed_mkError _
      · rcases w? with _ | w
        · exact wellFormed_mkError _
        · exact wellFormed_mkSuccess _

lemma get_current_time_wf (city : String) (geocode : Except String (Option Location))
    (timezone_at : Location → Except String (Option String))
    (now_in : String → Except String String) :
    wellFormed (get_current_time city geocode timezone_at now_in) := by
  rcases geocode with e | loc?
  · exact wellFormed_mkError _
  · rcases loc? with _ | loc
    · exact wellFormed_mkError _
    · rcases ht : timezone_at loc with e | tz?
      · simp only [get_current_time, get_current_time_try, ht]
        exact wellFormed_mkError _
      · rcases tz? with _ | tzname
        · simp only [get_current_time, get_current_time_try, ht]
          exact wellFormed_mkError _
        · rcases hn : now_in tzname with e | t
          · simp only [get_current_time, get_current_time_try, ht, hn]
            exact wellFormed_mkError _
          · simp only [get_current_time, get_current_time_try, ht, hn]
            exact wellFormed_mkSuccess _

/-- C1: for a known city and an `info_type` that is not an exact category key,
`get_travel_info` scans the city's category keys in table order and returns
success with the fact of the first key related to the lower-cased `info_type`
by substring containment in either direction — strictly first-match-in-order,
no scoring: whenever the city's key list splits as `pre ++ kv :: post` with
every key of `pre` unrelated and `kv`'s key related, the result is `kv`'s fact. -/
theorem travel_info_fuzzy_first_match (city info_type : String)
    (ci pre post : List (String × String)) (kv : String × String)
    (hc : List.lookup (pyLower city) travel_data = some ci)
    (hexact : List.lookup (pyLower info_type) ci = none)
    (hsplit : ci = pre ++ kv :: post)
    (hpre : ∀ q ∈ pre,
      (strIn (pyLower info_type) (pyLower q.1) || strIn (pyLower q.1) (pyLower info_type)) = false)
    (hkv : (strIn (pyLower info_type) (pyLower kv.1) ||
        strIn (pyLower kv.1) (pyLower info_type)) = true) :
    get_travel_info city info_type =
      mkSuccess ("For " ++ info_type ++ " in " ++ city ++ ": " ++ kv.2) := by
  subst hsplit
  have hfind := find?_of_prefix_none
    (fun q => strIn (pyLower info_type) (pyLower q.1) || strIn (pyLower q.1) (pyLower info_type))
    kv hkv pre post hpre
  simp only [get_travel_info, get_travel_info_try, hc, hexact, hfind]

theorem travel_info_fuzzy_first_match_witness :
    get_travel_info "Paris" "outlets" =
      mkSuccess ("For " ++ "outlets" ++ " in " ++ "Paris" ++ ": " ++
        "Type E (two round pins with a grounding hole). Standard voltage 230V, frequency 50Hz.") :=
  travel_info_fuzzy_first_match "Paris" "outlets"
    [("power outlets", "Type E (two round pins with a grounding hole). Standard voltage 230V, frequency 50Hz."),
     ("culture", "Values art, fashion, and cuisine. Greet with 'Bonjour' or 'Bonsoir'. Enjoy coffee at cafes and picnics in parks. Elegance is appreciated."),
     ("transportation", "The Metro is very efficient. T+ tickets for bus, metro, and tram. Walking is the best way to see the sights.")]
    []
    [("culture", "Values art, fashion, and cuisine. Greet with 'Bonjour' or 'Bonsoir'. Enjoy coffee at cafes and picnics in parks. Elegance is appreciated."),
     ("transportation", "The Metro is very efficient. T+ tickets for bus, metro, and tram. Walking is the best way to see the sights.")]
    ("power outlets", "Type E (two round pins with a grounding hole). Standard voltage 230V, frequency 50Hz.")
    rfl rfl rfl
    (fun q hq => absurd hq (List.not_mem_nil q))
    (by decide)

/-- C2: for a known city and an `info_type` whose lower-casing exactly matches
a category key, `get_travel_info` returns success with report
`"For {info_type} in {city}: {fact}"`, echoing the caller's original-case
`info_type` and `city`. -/
theorem travel_info_exact_match (city info_type : String)
    (ci : List (String × String)) (fact : String)
    (hc : List.lookup (pyLower city) travel_data = some ci)
    (hf : List.lookup (pyLower info_type) ci = some fact) :
    get_travel_info city info_type =
      mkSuccess ("For " ++ info_type ++ " in " ++ city ++ ": " ++ fact) := by
  simp only [get_travel_info, get_travel_info_try, hc, hf]

theorem travel_info_exact_match_witness :
    get_travel_info "Tokyo" "culture" =
      mkSuccess ("For " ++ "culture" ++ " in " ++ "Tokyo" ++ ": " ++
        "Highly values politeness, order, and cleanliness. Do not tip. Remove shoes in homes and some restaurants. Respect queues.") :=
  travel_info_exact_match "Tokyo" "culture"
    [("power outlets", "Types A and B (two or three flat pins). Standard voltage 100V, frequency 50Hz or 60Hz (depending on the region)."),
     ("culture", "Highly values politeness, order, and cleanliness. Do not tip. Remove shoes in homes and some restaurants. Respect queues."),
     ("transportation", "Highly efficient train and metro system. The Japan Rail Pass can be cost-effective. Be mindful of rush hour.")]
    "Highly values politeness, order, and cleanliness. Do not tip. Remove shoes in homes and some restaurants. Respect queues."
    rfl rfl

/-- C3: for a city whose lower-casing is not a key of the table,
`get_travel_info` returns error (whatever the `info_type`), mentioning the
original city text and suggesting "London, Tokyo, New York, or Paris" — while
the table itself holds six cities. -/
theorem travel_info_unknown_city (city info_type : String)
    (hc : List.lookup (pyLower city) travel_data = none) :
    get_travel_info city info_type =
      mkError ("Sorry, I don't have specific travel information for " ++ city ++
        " yet. You can try major cities like London, Tokyo, New York, or Paris.") ∧
    travel_data.map Prod.fst =
      ["london", "tokyo", "new york", "paris", "surabaya", "ponorogo"] := by
  refine ⟨?_, rfl⟩
  simp only [get_travel_info, get_travel_info_try, hc]

theorem travel_info_unknown_city_witness :
    (get_travel_info "Berlin" "culture" =
      mkError ("Sorry, I don't have specific travel information for " ++ "Berlin" ++
        " yet. You can try major cities like London, Tokyo, New York, or Paris.") ∧
    travel_data.map Prod.fst =
      ["london", "tokyo", "new york", "paris", "surabaya", "ponorogo"]) :=
  travel_info_unknown_city "Berlin" "culture" rfl

/-- C4: for a known city and an `info_type` whose lower-casing neither equals
nor is substring-related (in either direction) to any of that city's category
keys, `get_travel_info` returns error naming the unmatched original
`info_type` and listing the city's available category names comma-joined. -/
theorem travel_info_unknown_category (city info_type : String)
    (ci : List (String × String))
    (hc : List.lookup (pyLower city) travel_data = some ci)
    (hexact : List.lookup (pyLower info_type) ci = none)
    (hnone : ∀ q ∈ ci,
      (strIn (pyLower info_type) (pyLower q.1) || strIn (pyLower q.1) (pyLower info_type)) = false) :
    get_travel_info city info_type =
      mkError ("Sorry, I don't have information about '" ++ info_type ++ "' for " ++ city ++
        ". Available information includes: " ++
        String.intercalate ", " (ci.map Prod.fst) ++ ".") := by
  have hfind : List.find?
      (fun q => strIn (pyLower info_type) (pyLower q.1) || strIn (pyLower q.1) (pyLower info_type))
      ci = none :=
    List.find?_eq_none.mpr (fun x hx => by simp [hnone x hx])
  simp only [get_travel_info, get_travel_info_try, hc, hexact, hfind]

theorem travel_info_unknown_category_witness :
    get_travel_info "London" "food" =
      mkError ("Sorry, I don't have information about '" ++ "food" ++ "' for " ++ "London" ++
        ". Available information includes: " ++
        String.intercalate ", "
          ([("power outlets", "Type G (three rectangular pins). Standard voltage 230V, frequency 50Hz."),
            ("culture", "A culture of politeness, orderly queues, afternoon tea, and pub culture. Greet with 'excuse me' or 'sorry' when interacting. Respect personal space."),
            ("transportation", "Extensive public transportation (Tube, bus). Oyster card or contactless payment is recommended. Iconic black cabs.")].map Prod.fst) ++ ".") :=
  travel_info_unknown_category "London" "food"
    [("power outlets", "Type G (three rectangular pins). Standard voltage 230V, frequency 50Hz."),
     ("culture", "A culture of politeness, orderly queues, afternoon tea, and pub culture. Greet with 'excuse me' or 'sorry' when interacting. Respect personal space."),
     ("transportation", "Extensive public transportation (Tube, bus). Oyster card or contactless payment is recommended. Iconic black cabs.")]
    rfl rfl (by decide)

/-- C5: every value returned by `get_weather`, `get_current_time` and
`get_travel_info` has status exactly `"success"` or `"error"`, and exactly one
of `report`/`error_message` is populated, selected by the status. -/
theorem tool_results_status_partition :
    (∀ city geocode fetch, wellFormed (get_weather city geocode fetch)) ∧
    (∀ city geocode timezone_at now_in,
      wellFormed (get_current_time city geocode timezone_at now_in)) ∧
    (∀ city info_type, wellFormed (get_travel_info city info_type)) :=
  ⟨get_weather_wf, get_current_time_wf, get_travel_info_wf⟩

/-- C6 counterexample: a malformed (non-string) `city` argument is NOT caught:
`.lower()` is called on it at line 97, before the `try:` block of line 135, so
the `AttributeError` propagates out of the tool call instead of being converted
to an error ToolResult. -/
theorem travel_info_py_fault_escapes :
    get_travel_info_py PyVal.pynone (PyVal.str "culture") =
      Except.error "AttributeError: 'NoneType' object has no attribute 'lower'" :=
  rfl

/-- C6 amended: for every pair of STRING inputs, `get_travel_info` returns a
ToolResult and no exception propagates (the guarded body is total on strings,
so the catch-all with the "An error occurred while fetching travel
information: " prefix never fires); the lower-casing of the arguments, however,
runs before the `try:` block, so a non-string argument's fault escapes. -/
theorem travel_info_py_strings_never_fault (city info_type : String) :
    get_travel_info_py (PyVal.str city) (PyVal.str info_type) =
      Except.ok (get_travel_info city info_type) :=
  rfl

/-- C7: when the geocoding collaborator yields no location, both `get_weather`
and `get_current_time` return error with message exactly
`"Could not find the city: {city}."`, whatever the other collaborators do. -/
theorem geocode_not_found_error (city : String)
    (fetch : Location → Except PyExn (Option CurrentWeather))
    (timezone_at : Location → Except String (Option String))
    (now_in : String → Except String String) :
    get_weather city (Except.ok none) fetch =
      mkError ("Could not find the city: " ++ city ++ ".") ∧
    get_current_time city (Except.ok none) timezone_at now_in =
      mkError ("Could not find the city: " ++ city ++ ".") :=
  ⟨rfl, rfl⟩

/-- C8: when geocoding succeeds and the weather response carries a
`current_weather` object, `get_weather` returns success and its single-sentence
report embeds the temperature (°C) rendered with exactly one decimal digit, the
wind speed with the "km/h" unit, and the numeric weather code. -/
theorem weather_success_report_format (city : String)
    (geocode : Except PyExn (Option Location))
    (fetch : Location → Except PyExn (Option CurrentWeather))
    (loc : Location) (w : CurrentWeather)
    (hg : geocode = Except.ok (some loc))
    (hf : fetch loc = Except.ok (some w)) :
    get_weather city geocode fetch =
      mkSuccess ("The current temperature in " ++ city ++ " is " ++
        formatTenths w.temperature_tenths ++ "Â°C with a wind speed of " ++
        formatTenths w.windspeed_tenths ++ " km/h. Weather code: " ++
        toString w.weathercode ++ ".") ∧
    (∃ ip d, d < 10 ∧
      formatTenths w.temperature_tenths = ip ++ "." ++ String.singleton (Nat.digitChar d)) := by
  constructor
  · subst hg
    simp only [get_weather, get_weather_try, hf]
  · exact ⟨(if w.temperature_tenths < 0 then "-" else "") ++
      toString (w.temperature_tenths.natAbs / 10),
      w.temperature_tenths.natAbs % 10, Nat.mod_lt _ (by decide), rfl⟩

theorem weather_success_report_format_witness :
    (get_weather "Paris" (Except.ok (some (Location.mk 48 2)))
        (fun _ => Except.ok (some (CurrentWeather.mk 235 113 3))) =
      mkSuccess ("The current temperature in " ++ "Paris" ++ " is " ++
        formatTenths (CurrentWeather.mk 235 113 3).temperature_tenths ++
        "Â°C with a wind speed of " ++
        formatTenths (CurrentWeather.mk 235 113 3).windspeed_tenths ++
        " km/h. Weather code: " ++
        toString (CurrentWeather.mk 235 113 3).weathercode ++ ".")) ∧
    (∃ ip d, d < 10 ∧
      formatTenths (CurrentWeather.mk 235 113 3).temperature_tenths =
        ip ++ "." ++ String.singleton (Nat.digitChar d)) :=
  weather_success_report_format "Paris" (Except.ok (some (Location.mk 48 2)))
    (fun _ => Except.ok (some (CurrentWeather.mk 235 113 3)))
    (Location.mk 48 2) (CurrentWeather.mk 235 113 3) rfl rfl

/-- C9: `get_travel_info` is deterministic — two calls with identical
arguments return identical results. (In the embedding the function is pure:
the table is a local literal rebuilt identically on every call and the
function reads no other state, faithfully to lines 93-168 of the source.) -/
theorem travel_info_deterministic :
    ∀ city info_type : String,
      get_travel_info city info_type = get_travel_info city info_type :=
  fun _ _ => rfl

/-- C10: for every city whose lower-casing is a key of the table, calling
`get_travel_info` with the empty `info_type` returns success with that city's
"power outlets" fact: the empty string is no exact key, but it is a substring
of every key, so the first-in-table-order fuzzy match fires on the first key. -/
theorem travel_info_empty_info_type (city : String) (ci : List (String × String))
    (hc : List.lookup (pyLower city) travel_data = some ci) :
    ∃ fact, List.lookup "power outlets" ci = some fact ∧
      get_travel_info city "" =
        mkSuccess ("For " ++ "" ++ " in " ++ city ++ ": " ++ fact) := by
  simp only [travel_data, List.lookup] at hc
  split at hc
  · next h =>
    obtain rfl := Option.some.inj hc
    refine ⟨_, rfl, ?_⟩
    simp only [get_travel_info, get_travel_info_try, eq_of_beq h]
    rfl
  · split at hc
    · next h =>
      obtain rfl := Option.some.inj hc
      refine ⟨_, rfl, ?_⟩
      simp only [get_travel_info, get_travel_info_try, eq_of_beq h]
      rfl
    · split at hc
      · next h =>
        obtain rfl := Option.some.inj hc
        refine ⟨_, rfl, ?_⟩
        simp only [get_travel_info, get_travel_info_try, eq_of_beq h]
        rfl
      · split at hc
        · next h =>
          obtain rfl := Option.some.inj hc
          refine ⟨_, rfl, ?_⟩
          simp only [get_travel_info, get_travel_info_try, eq_of_beq h]
          rfl
        · split at hc
          · next h =>
            obtain rfl := Option.some.inj hc
            refine ⟨_, rfl, ?_⟩
            simp only [get_travel_info, get_travel_info_try, eq_of_beq h]
            rfl
          · split at hc
            · next h =>
              obtain rfl := Option.some.inj hc
              refine ⟨_, rfl, ?_⟩
              simp only [get_travel_info, get_travel_info_try, eq_of_beq h]
              rfl
            · exact Option.noConfusion hc

theorem travel_info_empty_info_type_witness :
    ∃ fact,
      List.lookup "power outlets"
        [("power outlets", "Types A and B (two or three flat pins). Standard voltage 100V, frequency 50Hz or 60Hz (depending on the region)."),
         ("culture", "Highly values politeness, order, and cleanliness. Do not tip. Remove shoes in homes and some restaurants. Respect queues."),
         ("transportation", "Highly efficient train and metro system. The Japan Rail Pass can be cost-effective. Be mindful of rush hour.")] = some fact ∧
      get_travel_info "Tokyo" "" =
        mkSuccess ("For " ++ "" ++ " in " ++ "Tokyo" ++ ": " ++ fact) :=
  travel_info_empty_info_type "Tokyo"
    [("power outlets", "Types A and B (two or three flat pins). Standard voltage 100V, frequency 50Hz or 60Hz (depending on the region)."),
     ("culture", "Highly values politeness, order, and cleanliness. Do not tip. Remove shoes in homes and some restaurants. Respect queues."),
     ("transportation", "Highly efficient train and metro system. The Japan Rail Pass can be cost-effective. Be mindful of rush hour.")]
    rfl
